import Mathlib

/-!
Shallow embedding of the cow-herding game (src/sketch.js) and proofs of the
spec's claims about it.

Modelling conventions:
- JavaScript numbers are modelled as exact rationals `ℚ`; the special values
  the code guards against (`Infinity`, `-Infinity`, `NaN`, produced by
  `1.0 / frameRate()`) are modelled by the inductive `DT`.
- p5 images are opaque handles; we model them as natural-number ids.  A JS
  out-of-range array read yields `undefined`, modelled by `Option ℕ`.
- p5's random sources (`random(0,1)` and `random([choice...])`) are modelled
  as two oracle streams indexed by counters that are threaded through a tick
  in the evaluation order of the JS code.
- p5 vectors have reference semantics in JS, but the code defensively copies
  on every get/set (`.copy()`), so values never alias; we model vectors as
  values and `.copy()` as the identity.
-/

/-- A 2D vector, p5.Vector restricted to the fields the game uses. -/
structure Vec where
  x : ℚ
  y : ℚ
  deriving DecidableEq

/-- p5.Vector.add (componentwise). -/
def Vec.add (a b : Vec) : Vec := ⟨a.x + b.x, a.y + b.y⟩

/-- p5.Vector.sub (componentwise). -/
def Vec.sub (a b : Vec) : Vec := ⟨a.x - b.x, a.y - b.y⟩

/-- p5.Vector.mult by a scalar. -/
def Vec.smul (q : ℚ) (v : Vec) : Vec := ⟨q * v.x, q * v.y⟩

/-- The squared magnitude of a vector.  The code compares `mag() > 0` and
uses `mag()` inside a floor; both are expressed exactly through `magSq`
(`mag v > 0 ↔ magSq v > 0`, and the floor is computed by `floorTimesSqrt`). -/
def Vec.magSq (v : Vec) : ℚ := v.x ^ 2 + v.y ^ 2

namespace MathHelper

/-- MathHelper.positionInBounds: strict containment of `position` in the
axis-aligned rectangle centered at `boundsPosition` with full extents
`boundsSize`. -/
def positionInBounds (position boundsPosition boundsSize : Vec) : Bool :=
  decide (position.x > boundsPosition.x - boundsSize.x / 2 ∧
    position.x < boundsPosition.x + boundsSize.x / 2 ∧
    position.y > boundsPosition.y - boundsSize.y / 2 ∧
    position.y < boundsPosition.y + boundsSize.y / 2)

/-- MathHelper.VECTOR_ZERO(). -/
def VECTOR_ZERO : Vec := ⟨0, 0⟩

/-- MathHelper.VECTOR_ONE(). -/
def VECTOR_ONE : Vec := ⟨1, 1⟩

/-- MathHelper.VECTOR_LEFT(). -/
def VECTOR_LEFT : Vec := ⟨-1, 0⟩

/-- MathHelper.VECTOR_RIGHT(). -/
def VECTOR_RIGHT : Vec := ⟨1, 0⟩

/-- MathHelper.VECTOR_UP(). -/
def VECTOR_UP : Vec := ⟨0, -1⟩

/-- MathHelper.VECTOR_DOWN(). -/
def VECTOR_DOWN : Vec := ⟨0, 1⟩

end MathHelper

/-- The choice set of `random([VECTOR_LEFT, VECTOR_RIGHT, VECTOR_UP,
VECTOR_DOWN])` in Cow._tickNormal. -/
inductive Dir4
  | left
  | right
  | up
  | down
  deriving DecidableEq

/-- The vector each choice stands for. -/
def Dir4.vec : Dir4 → Vec
  | .left => MathHelper.VECTOR_LEFT
  | .right => MathHelper.VECTOR_RIGHT
  | .up => MathHelper.VECTOR_UP
  | .down => MathHelper.VECTOR_DOWN

/-- `⌊√q⌋` for a nonnegative rational `q` (0 for negative input), computed
with natural integer square root: `√(n/d) = √(n·d)/d`, and flooring commutes
with the final division by `d`. -/
def ratSqrtFloorNat (q : ℚ) : ℕ := Nat.sqrt (q.num.toNat * q.den) / q.den

/-- `⌊t·√s⌋` for `s ≥ 0`, exactly as JS `Math.floor` (floor toward `-∞`).
For `t < 0` this is `-⌈√(t²s)⌉`, splitting on whether `√(t²s)` is exact. -/
def floorTimesSqrt (t s : ℚ) : ℤ :=
  if 0 ≤ t then (ratSqrtFloorNat (t ^ 2 * s) : ℤ)
  else
    let q := t ^ 2 * s
    let k := ratSqrtFloorNat q
    if ((k : ℚ)) ^ 2 = q then -(k : ℤ) else -(k : ℤ) - 1

/-- `floor(elapsedTime * velocity.mag() / distancePerFrame)` from
AnimatingSprite._getImage, rewritten exactly as
`⌊(elapsedTime/distancePerFrame)·√(magSq velocity)⌋`. -/
def frameCountOf (elapsedTime : ℚ) (v : Vec) (distancePerFrame : ℚ) : ℤ :=
  floorTimesSqrt (elapsedTime / distancePerFrame) (Vec.magSq v)

/-- JS array indexing `arr[i % arr.length]` with JS `%` (truncated remainder,
`Int.tmod`); a negative or out-of-range index reads `undefined` (`none`). -/
def jsIndex (l : List ℕ) (i : ℤ) : Option ℕ :=
  let r := Int.tmod i (l.length : ℤ)
  if h : 0 ≤ r ∧ r.toNat < l.length then some (l.get ⟨r.toNat, h.2⟩) else none

/-- The value of `dt = 1.0 / frameRate()` in GameManager.tick: a finite
number, an infinity (from `frameRate() = ±0`) or NaN (from an undefined
frame-rate reading before the first draw). -/
inductive DT
  | fin (q : ℚ)
  | posInf
  | negInf
  | nan
  deriving DecidableEq

/-- The canvas size (p5 `width`/`height`, set from the window dimensions). -/
structure Cfg where
  width : ℚ
  height : ℚ
  deriving DecidableEq

/-- The two values ever held by GameManager._descriptionText (together with
the matching font size): `instructional` is GameManager._descriptionInitial,
`success` is GameManager._descriptionSuccess. -/
inductive DescText
  | instructional
  | success
  deriving DecidableEq

/-- A plain Sprite's state: image handle, size, position, velocity. -/
structure SpriteState where
  image : Option ℕ
  size : Vec
  position : Vec
  velocity : Vec
  deriving DecidableEq

/-- An AnimatingSprite's state: Sprite state plus elapsed time and the last
chosen animation frame. -/
structure AnimState where
  image : Option ℕ
  size : Vec
  position : Vec
  velocity : Vec
  elapsedTime : ℚ
  lastImage : Option ℕ
  deriving DecidableEq

/-- A Cow's state: AnimatingSprite state plus the optional target position
(set iff the cow is in FOLLOWING mode). -/
structure CowState where
  anim : AnimState
  targetPosition : Option Vec
  deriving DecidableEq

/-- Counters into the two random oracle streams (rolls of `random(0,1)` and
choices of `random([...])`), advanced in JS evaluation order. -/
structure RCnt where
  ri : ℕ
  di : ℕ
  deriving DecidableEq

/-- The four direction-indexed animation image sequences of an
AnimatingSprite. -/
structure DirArrays where
  left : List ℕ
  right : List ℕ
  up : List ℕ
  down : List ℕ
  deriving DecidableEq

/-- The environment a call of GameManager.tick() reads: the dt computed from
`frameRate()`, the held arrow keys (`keyIsDown`), and the two random oracle
streams. -/
structure Input where
  dt : DT
  keyLeft : Bool
  keyRight : Bool
  keyUp : Bool
  keyDown : Bool
  rolls : ℕ → ℚ
  dirs : ℕ → Dir4

/-- The whole mutable game state owned by GameManager.  The followed cow is
an index into `cows` (the JS reference is stable because the cow list never
changes after setup). -/
structure GameState where
  person : AnimState
  fence : SpriteState
  cows : List CowState
  title : SpriteState
  followingCow : Option ℕ
  descriptionText : DescText
  descriptionFontSize : ℚ
  deriving DecidableEq

namespace GameManager

/-- GameManager._frameRate. -/
def frameRateTarget : ℚ := 30

/-- GameManager._edgeWidth. -/
def edgeWidth : ℚ := 80

/-- GameManager._cowRange. -/
def cowRange : ℚ := 50

/-- GameManager._titleSize. -/
def titleSize : Vec := ⟨400, 60⟩

/-- GameManager._titlePosition (depends on the window height). -/
def titlePosition (cfg : Cfg) : Vec := ⟨0, -cfg.height / 2 + 60⟩

/-- GameManager._descriptionInitialFontSize. -/
def descriptionInitialFontSize : ℚ := 18

/-- GameManager._descriptionSuccessFontSize. -/
def descriptionSuccessFontSize : ℚ := 24

end GameManager

namespace Cow

/-- Cow._size = VECTOR_ONE().mult(128). -/
def size : Vec := ⟨128, 128⟩

/-- Cow._distanceFromFrame. -/
def distancePerFrame : ℚ := 5 / 2

/-- Cow._targetPadding. -/
def targetPadding : ℚ := 40

/-- Cow._normalSpeed. -/
def normalSpeed : ℚ := 20

/-- Cow._targetSpeed. -/
def targetSpeed : ℚ := 40

/-- The cow animation frames (image ids 0-15 stand for the 4x4 cow images
loaded in Cow.preload). -/
def arrays : DirArrays :=
  ⟨[0, 1, 2, 3], [4, 5, 6, 7], [8, 9, 10, 11], [12, 13, 14, 15]⟩

end Cow

namespace Person

/-- Person._size. -/
def size : Vec := ⟨32, 32⟩

/-- Person._distanceFromFrame. -/
def distancePerFrame : ℚ := 5 / 2

/-- Person._speed. -/
def speed : ℚ := 30

/-- The person animation frames (image ids 16-27 stand for the 4x3 person
images loaded in Person.preload). -/
def arrays : DirArrays :=
  ⟨[16, 17, 18], [19, 20, 21], [22, 23, 24], [25, 26, 27]⟩

end Person

namespace Fence

/-- Fence._size = VECTOR_ONE().mult(400). -/
def size : Vec := ⟨400, 400⟩

/-- Fence._edgeWidth. -/
def edgeWidth : ℚ := 100

/-- Fence._openingSize = createVector(100, Fence._edgeWidth). -/
def openingSize : Vec := ⟨100, edgeWidth⟩

/-- Fence._image id. -/
def imageId : ℕ := 28

end Fence

/-- GameManager._titleImage id. -/
def titleImageId : ℕ := 29

/-- Sprite.tick(dt): position += velocity × dt. -/
def spriteTick (dt : ℚ) (sp : SpriteState) : SpriteState :=
  { sp with position := Vec.add sp.position (Vec.smul dt sp.velocity) }

/-- AnimatingSprite.tick(dt): elapsedTime += dt; image := _getImage();
then the Sprite position update.  `_getImage` picks the sequence from the
velocity sign (x checked before y), advances `_lastImage` when moving, and
keeps it when idle. -/
def animTick (arrs : DirArrays) (dpf : ℚ) (dt : ℚ) (a : AnimState) : AnimState :=
  let e := a.elapsedTime + dt
  let sel : Option (List ℕ) :=
    if a.velocity.x < 0 then some arrs.left
    else if a.velocity.x > 0 then some arrs.right
    else if a.velocity.y < 0 then some arrs.up
    else if a.velocity.y > 0 then some arrs.down
    else none
  let li : Option ℕ :=
    match sel with
    | some arr => jsIndex arr (frameCountOf e a.velocity dpf)
    | none => a.lastImage
  { a with elapsedTime := e, image := li, lastImage := li,
           position := Vec.add a.position (Vec.smul dt a.velocity) }

/-- Cow._tickTarget: steer toward the target one axis at a time (x before y)
with the padding threshold; note the first branch hardcodes `40` in the
source while the others use Cow._targetPadding. -/
def Cow.tickTarget (c : CowState) (t : Vec) : CowState :=
  let v :=
    if c.anim.position.x > t.x + 40 then
      Vec.smul Cow.targetSpeed MathHelper.VECTOR_LEFT
    else if c.anim.position.x < t.x - Cow.targetPadding then
      Vec.smul Cow.targetSpeed MathHelper.VECTOR_RIGHT
    else if c.anim.position.y > t.y + Cow.targetPadding then
      Vec.smul Cow.targetSpeed MathHelper.VECTOR_UP
    else if c.anim.position.y < t.y - Cow.targetPadding then
      Vec.smul Cow.targetSpeed MathHelper.VECTOR_DOWN
    else MathHelper.VECTOR_ZERO
  { c with anim := { c.anim with velocity := v } }

/-- Cow._tickNormal: with probability 0.1·dt (one roll of `random(0,1)` per
call) toggle between stopping (`mag() > 0`, expressed via `magSq`) and
picking a uniformly random cardinal direction at Cow._normalSpeed. -/
def Cow.tickNormal (inp : Input) (dt : ℚ) (c : CowState) (r : RCnt) :
    CowState × RCnt :=
  let probability := (1 / 10 : ℚ) * dt
  let roll := inp.rolls r.ri
  let r1 : RCnt := ⟨r.ri + 1, r.di⟩
  if roll < probability then
    if Vec.magSq c.anim.velocity > 0 then
      ({ c with anim := { c.anim with velocity := MathHelper.VECTOR_ZERO } }, r1)
    else
      let d := inp.dirs r1.di
      ({ c with anim :=
          { c.anim with velocity := Vec.smul Cow.normalSpeed (Dir4.vec d) } },
        ⟨r1.ri, r1.di + 1⟩)
  else (c, r1)

/-- Cow.tick(dt): behavior step (_tickTarget when a target is set, else
_tickNormal), then the AnimatingSprite tick. -/
def Cow.tick (inp : Input) (dt : ℚ) (c : CowState) (r : RCnt) :
    CowState × RCnt :=
  let br :=
    match c.targetPosition with
    | some t => (Cow.tickTarget c t, r)
    | none => Cow.tickNormal inp dt c r
  ({ br.1 with anim := animTick Cow.arrays Cow.distancePerFrame dt br.1.anim },
    br.2)

/-- Person.setControlledDirection: velocity := direction × Person._speed. -/
def Person.setControlledDirection (d : Vec) (p : AnimState) : AnimState :=
  { p with velocity := Vec.smul Person.speed d }

/-- Fence.isOverlapping: inside the outer bound, outside the inner bound and
outside the opening (the opening sits half the fence height above the fence
center; screen y grows downward, so "above" subtracts). -/
def Fence.isOverlapping (f : SpriteState) (position : Vec) : Bool :=
  let outerFenceBoundSize :=
    Vec.add f.size (Vec.smul (Fence.edgeWidth / 2) MathHelper.VECTOR_ONE)
  let innerFenceBoundSize :=
    Vec.sub f.size (Vec.smul (Fence.edgeWidth / 2) MathHelper.VECTOR_ONE)
  let openingPosition := Vec.sub f.position ⟨0, f.size.y / 2⟩
  let isInOuterFenceBound :=
    MathHelper.positionInBounds position f.position outerFenceBoundSize
  let isInInnerFenceBound :=
    MathHelper.positionInBounds position f.position innerFenceBoundSize
  let isInOpening :=
    MathHelper.positionInBounds position openingPosition Fence.openingSize
  isInOuterFenceBound && !isInInnerFenceBound && !isInOpening

/-- Replace the element at an index of a list (identity when out of range);
mirrors mutating the JS cow object held by the followed-cow reference. -/
def modifyIdx : List α → ℕ → (α → α) → List α
  | [], _, _ => []
  | a :: as, 0, f => f a :: as
  | a :: as, n + 1, f => a :: modifyIdx as n f

/-- Map a state-threading function over a list left to right (the order of
`forEach` in GameManager.tick, which fixes random-stream consumption). -/
def mapThread (f : α → σ → α × σ) : List α → σ → List α × σ
  | [], s => ([], s)
  | a :: as, s =>
    let p := f a s
    let q := mapThread f as p.2
    (p.1 :: q.1, q.2)

/-- The direction chosen by the `keyIsDown` chain in GameManager.tick, in
source priority order: left, right, up, down, else zero. -/
def keyDirection (inp : Input) : Vec :=
  if inp.keyLeft then MathHelper.VECTOR_LEFT
  else if inp.keyRight then MathHelper.VECTOR_RIGHT
  else if inp.keyUp then MathHelper.VECTOR_UP
  else if inp.keyDown then MathHelper.VECTOR_DOWN
  else MathHelper.VECTOR_ZERO

/-- The followed-cow update in GameManager.tick: when a cow is followed, its
target is set to the person's current (pre-move) position. -/
def applyFollow (s : GameState) : GameState :=
  match s.followingCow with
  | none => s
  | some i =>
    let setTarget := fun c => { c with targetPosition := some s.person.position }
    { s with cows := modifyIdx s.cows i setTarget }

/-- The game bounds used for the cow edge check:
createVector(width, height).sub(VECTOR_ONE().mult(GameManager._edgeWidth)). -/
def gameBoundsOf (cfg : Cfg) : Vec :=
  Vec.sub ⟨cfg.width, cfg.height⟩
    (Vec.smul GameManager.edgeWidth MathHelper.VECTOR_ONE)

/-- The first cow collision response in GameManager.tick: when the cow's
position overlaps the fence, negate its velocity and run its tick once more
with the same dt. -/
def fenceCollide (fence : SpriteState) (inp : Input) (dt : ℚ) (c : CowState)
    (r : RCnt) : CowState × RCnt :=
  if Fence.isOverlapping fence c.anim.position then
    Cow.tick inp dt
      { c with anim :=
          { c.anim with velocity := Vec.smul (-1) c.anim.velocity } } r
  else (c, r)

/-- The second cow collision response in GameManager.tick: when the cow's
position is outside the game bounds inset by the edge margin, negate its
velocity and run its tick once more with the same dt. -/
def edgeCollide (cfg : Cfg) (inp : Input) (dt : ℚ) (c : CowState)
    (r : RCnt) : CowState × RCnt :=
  if ! MathHelper.positionInBounds c.anim.position MathHelper.VECTOR_ZERO
      (gameBoundsOf cfg) then
    Cow.tick inp dt
      { c with anim :=
          { c.anim with velocity := Vec.smul (-1) c.anim.velocity } } r
  else (c, r)

/-- One iteration of the cow collision forEach: the fence check, then —
independently, on the possibly already corrected cow — the edge check. -/
def collideStep (cfg : Cfg) (fence : SpriteState) (inp : Input) (dt : ℚ)
    (c : CowState) (r : RCnt) : CowState × RCnt :=
  let p := fenceCollide fence inp dt c r
  edgeCollide cfg inp dt p.1 p.2

/-- The final block of GameManager.tick: if no cow is outside the fence's
interior bound (position/size rectangle), switch the description to the
success text and font size. -/
def winCheck (s : GameState) : GameState :=
  let cowsOutsideFence := s.cows.filter (fun c =>
    ! MathHelper.positionInBounds c.anim.position s.fence.position s.fence.size)
  if cowsOutsideFence.length = 0 then
    { s with descriptionText := DescText.success,
             descriptionFontSize := GameManager.descriptionSuccessFontSize }
  else s

/-- GameManager.tick with a valid dt, up to (excluding) the win check:
person input, followed-cow target update, the allSprites tick pass in array
order (title, fence, person, cows), the cow collision pass, and the person
fence check. -/
def preWin (cfg : Cfg) (inp : Input) (dt : ℚ) (s : GameState) : GameState :=
  let s1 :=
    { s with person := Person.setControlledDirection (keyDirection inp) s.person }
  let s2 := applyFollow s1
  let title2 := spriteTick dt s2.title
  let fence2 := spriteTick dt s2.fence
  let person2 := animTick Person.arrays Person.distancePerFrame dt s2.person
  let cowsR := mapThread (Cow.tick inp dt) s2.cows ⟨0, 0⟩
  let cowsR2 := mapThread (collideStep cfg fence2 inp dt) cowsR.1 cowsR.2
  let s3 := { s2 with title := title2, fence := fence2, person := person2,
                      cows := cowsR2.1 }
  let person3 :=
    if Fence.isOverlapping s3.fence s3.person.position then
      { s3.person with
          position := Vec.sub s3.person.position (Vec.smul dt s3.person.velocity),
          velocity := MathHelper.VECTOR_ZERO }
    else s3.person
  { s3 with person := person3 }

/-- GameManager.tick(): compute dt = 1/frameRate(); skip everything when dt
is zero, infinite or NaN; otherwise run the frame update and the win check. -/
def gmTick (cfg : Cfg) (inp : Input) (s : GameState) : GameState :=
  match inp.dt with
  | DT.posInf => s
  | DT.negInf => s
  | DT.nan => s
  | DT.fin dt => if dt = 0 then s else winCheck (preWin cfg inp dt s)

/-- GameManager.draw() only renders; it mutates none of the modelled state. -/
def gmDraw (s : GameState) : GameState := s

/-- `dist(person, cow) < range` compared via squares: both sides are
nonnegative, so `√d < r ↔ d < r²` exactly. -/
def distLt (a b : Vec) (r : ℚ) : Bool :=
  decide ((a.x - b.x) ^ 2 + (a.y - b.y) ^ 2 < r ^ 2)

/-- GameManager.keyTyped: on space, release the followed cow, or else follow
the first cow within GameManager._cowRange of the person. -/
def gmKeyTyped (k : Char) (s : GameState) : GameState :=
  if k = ' ' then
    match s.followingCow with
    | some i =>
      { s with cows := modifyIdx s.cows i (fun c => { c with targetPosition := none }),
               followingCow := none }
    | none =>
      match List.findIdx? (fun c =>
          distLt s.person.position c.anim.position GameManager.cowRange) s.cows with
      | some i => { s with followingCow := some i }
      | none => s
  else s

/-- An externally triggered operation on the game state. -/
inductive Op
  | tick (inp : Input)
  | draw
  | keyTyped (k : Char)

/-- Apply one operation. -/
def applyOp (cfg : Cfg) (s : GameState) : Op → GameState
  | .tick inp => gmTick cfg inp s
  | .draw => gmDraw s
  | .keyTyped k => gmKeyTyped k s

/-- Apply a sequence of operations in order. -/
def applyOps (cfg : Cfg) (ops : List Op) (s : GameState) : GameState :=
  ops.foldl (applyOp cfg) s

/-- The AnimatingSprite constructor state: image = imageDownArray[0],
velocity = VECTOR_ZERO(), elapsedTime = 0, lastImage = imageDownArray[0]. -/
def mkAnim (arrs : DirArrays) (sz p : Vec) : AnimState :=
  { image := arrs.down.head?, size := sz, position := p,
    velocity := MathHelper.VECTOR_ZERO, elapsedTime := 0,
    lastImage := arrs.down.head? }

/-- The Cow constructor: no target set. -/
def mkCow (p : Vec) : CowState :=
  { anim := mkAnim Cow.arrays Cow.size p, targetPosition := none }

/-- The Person constructor. -/
def mkPerson (p : Vec) : AnimState := mkAnim Person.arrays Person.size p

/-- The Fence constructor. -/
def mkFence (p : Vec) : SpriteState :=
  { image := some Fence.imageId, size := Fence.size, position := p,
    velocity := MathHelper.VECTOR_ZERO }

/-- The title Sprite created in GameManager.setup. -/
def mkTitle (cfg : Cfg) : SpriteState :=
  { image := some titleImageId, size := GameManager.titleSize,
    position := GameManager.titlePosition cfg,
    velocity := MathHelper.VECTOR_ZERO }

/-- The state right after GameManager.setup creates the person (at the
origin), the fence (at the origin), the three cows (at the random positions
`p0 p1 p2` drawn by the host), and the title — before the warm-up loop. -/
def initialState (cfg : Cfg) (p0 p1 p2 : Vec) : GameState :=
  { person := mkPerson MathHelper.VECTOR_ZERO,
    fence := mkFence MathHelper.VECTOR_ZERO,
    cows := [mkCow p0, mkCow p1, mkCow p2],
    title := mkTitle cfg,
    followingCow := none,
    descriptionText := DescText.instructional,
    descriptionFontSize := GameManager.descriptionInitialFontSize }

/-- GameManager.setup: build the initial state, then call `this.tick(...)`
ten times.  `tick()` declares no parameter, so the `{dt: 1.0/30}` argument
of each warm-up call is ignored and each call reads its dt from the
environment (`envInputs i`) like any other tick. -/
def gmSetup (cfg : Cfg) (p0 p1 p2 : Vec) (envInputs : ℕ → Input) : GameState :=
  (List.range 10).foldl (fun s i => gmTick cfg (envInputs i) s)
    (initialState cfg p0 p1 p2)

/-- A velocity is axis-aligned: at most one component is nonzero. -/
def axisAligned (v : Vec) : Prop := v.x = 0 ∨ v.y = 0

/-- All cows of a state have axis-aligned velocities. -/
def cowsAligned (s : GameState) : Prop :=
  ∀ c ∈ s.cows, axisAligned c.anim.velocity

/-- A concrete 1000x1000 canvas, used to instantiate universally
quantified statements. -/
def cfg0 : Cfg := ⟨1000, 1000⟩

/-- A concrete valid tick environment: dt = 1/30, no key held, every random
roll 1/2, every random direction choice left. -/
def inp0 : Input :=
  { dt := DT.fin (1 / 30), keyLeft := false, keyRight := false,
    keyUp := false, keyDown := false, rolls := fun _ => 1 / 2,
    dirs := fun _ => Dir4.left }

/-- The same environment with the invalid frame-rate reading p5 produces
before the first draw (frameRate() = 0, so dt = 1/0 = Infinity). -/
def badInp : Input := { inp0 with dt := DT.posInf }

/-- A concrete NORMAL-mode cow on the left edge of the fence ring, moving
left at normal speed. -/
def cow0 : CowState :=
  { mkCow ⟨-200, 0⟩ with anim :=
      { (mkCow ⟨-200, 0⟩).anim with
          velocity := Vec.smul Cow.normalSpeed MathHelper.VECTOR_LEFT } }

/-- A concrete FOLLOWING-mode cow to the right of its target. -/
def cowT : CowState :=
  { mkCow ⟨100, 0⟩ with targetPosition := some MathHelper.VECTOR_ZERO }

/-- animTick never changes the velocity. -/
theorem animTick_velocity (arrs : DirArrays) (dpf dt : ℚ) (a : AnimState) :
    (animTick arrs dpf dt a).velocity = a.velocity := rfl

/-- animTick advances the position by velocity × dt. -/
theorem animTick_position (arrs : DirArrays) (dpf dt : ℚ) (a : AnimState) :
    (animTick arrs dpf dt a).position =
      Vec.add a.position (Vec.smul dt a.velocity) := rfl

/-- animTick accumulates the elapsed time. -/
theorem animTick_elapsedTime (arrs : DirArrays) (dpf dt : ℚ) (a : AnimState) :
    (animTick arrs dpf dt a).elapsedTime = a.elapsedTime + dt := rfl

/-- Claim C1: when GameManager.tick computes a dt that is zero, infinite or
NaN, it returns without mutating any state: the resulting game state (every
sprite's position, velocity, size, elapsed time and image, the followed-cow
reference, and the description text and font size) equals the input state. -/
theorem tick_skips_invalid_dt (cfg : Cfg) (inp : Input) (s : GameState)
    (h : inp.dt = DT.fin 0 ∨ inp.dt = DT.posInf ∨ inp.dt = DT.negInf ∨
      inp.dt = DT.nan) :
    gmTick cfg inp s = s := by
  rcases h with h | h | h | h <;> simp [gmTick, h]

/-- Concrete instance of `tick_skips_invalid_dt`: a tick with an infinite dt
leaves the freshly set up state untouched. -/
theorem tick_skips_invalid_dt_witness :
    gmTick cfg0 badInp (initialState cfg0 ⟨1, 2⟩ ⟨3, 4⟩ ⟨5, 6⟩) =
      initialState cfg0 ⟨1, 2⟩ ⟨3, 4⟩ ⟨5, 6⟩ :=
  tick_skips_invalid_dt cfg0 badInp _ (Or.inr (Or.inl rfl))

/-- Claim C9: positionInBounds holds iff the position is strictly inside the
rectangle centered at boundsPosition with extents boundsSize, and a position
with a coordinate exactly on a boundary edge is rejected. -/
theorem positionInBounds_strict (p bp bs : Vec) :
    (MathHelper.positionInBounds p bp bs = true ↔
      (bp.x - bs.x / 2 < p.x ∧ p.x < bp.x + bs.x / 2 ∧
       bp.y - bs.y / 2 < p.y ∧ p.y < bp.y + bs.y / 2)) ∧
    ((p.x = bp.x - bs.x / 2 ∨ p.x = bp.x + bs.x / 2 ∨
      p.y = bp.y - bs.y / 2 ∨ p.y = bp.y + bs.y / 2) →
      MathHelper.positionInBounds p bp bs = false) := by
  constructor
  · simp [MathHelper.positionInBounds]
  · rintro (h | h | h | h) <;> simp [MathHelper.positionInBounds, h]

/-- Concrete instance of `positionInBounds_strict`: the point (1, 0) sits
exactly on the right edge of the square of size 2 around the origin and is
reported out of bounds. -/
theorem positionInBounds_strict_witness :
    MathHelper.positionInBounds ⟨1, 0⟩ ⟨0, 0⟩ ⟨2, 2⟩ = false :=
  (positionInBounds_strict ⟨1, 0⟩ ⟨0, 0⟩ ⟨2, 2⟩).2 (by norm_num)

/-- Claim C4: Fence.isOverlapping p is true iff p lies inside the outer
bound (fence size plus half the edge width, centered at the fence position),
not inside the inner bound (fence size minus half the edge width, same
center), and not inside the opening rectangle centered half the fence height
above the fence position; in particular a position inside the opening never
overlaps. -/
theorem fence_isOverlapping_characterization (f : SpriteState) (p : Vec) :
    (Fence.isOverlapping f p = true ↔
      (MathHelper.positionInBounds p f.position
          (Vec.add f.size ⟨Fence.edgeWidth / 2, Fence.edgeWidth / 2⟩) = true ∧
       MathHelper.positionInBounds p f.position
          (Vec.sub f.size ⟨Fence.edgeWidth / 2, Fence.edgeWidth / 2⟩) = false ∧
       MathHelper.positionInBounds p (Vec.sub f.position ⟨0, f.size.y / 2⟩)
          Fence.openingSize = false)) ∧
    (MathHelper.positionInBounds p (Vec.sub f.position ⟨0, f.size.y / 2⟩)
        Fence.openingSize = true → Fence.isOverlapping f p = false) := by
  have h1 : Vec.smul (Fence.edgeWidth / 2) MathHelper.VECTOR_ONE =
      (⟨Fence.edgeWidth / 2, Fence.edgeWidth / 2⟩ : Vec) := by
    simp [Vec.smul, MathHelper.VECTOR_ONE]
  constructor
  · simp [Fence.isOverlapping, h1, Bool.and_eq_true, Bool.not_eq_true',
      and_assoc]
  · intro h
    simp [Fence.isOverlapping, h1, h]

/-- Concrete instance of `fence_isOverlapping_characterization`: the center
of the opening of the default fence at the origin, (0, -200), does not
overlap even though it lies within the outer/inner ring. -/
theorem fence_isOverlapping_characterization_witness :
    Fence.isOverlapping (mkFence MathHelper.VECTOR_ZERO) ⟨0, -200⟩ = false :=
  (fence_isOverlapping_characterization (mkFence MathHelper.VECTOR_ZERO)
    ⟨0, -200⟩).2 (by
      simp [MathHelper.positionInBounds, mkFence, Fence.size,
        Fence.openingSize, Fence.edgeWidth, MathHelper.VECTOR_ZERO, Vec.sub]
      norm_num)

/-- Claim C5: a cow with a target position sets its velocity per tick by
comparing its position to the target on x first, then y, with the padding
threshold 40: target speed left, right, up or down on a single axis, or zero
when within the padding on both axes; the result never has both components
nonzero. -/
theorem cow_following_single_axis (inp : Input) (dt : ℚ) (c : CowState)
    (r : RCnt) (t : Vec) (h : c.targetPosition = some t) :
    ((Cow.tick inp dt c r).1.anim.velocity =
      (if c.anim.position.x > t.x + 40 then
        Vec.smul Cow.targetSpeed MathHelper.VECTOR_LEFT
       else if c.anim.position.x < t.x - 40 then
        Vec.smul Cow.targetSpeed MathHelper.VECTOR_RIGHT
       else if c.anim.position.y > t.y + 40 then
        Vec.smul Cow.targetSpeed MathHelper.VECTOR_UP
       else if c.anim.position.y < t.y - 40 then
        Vec.smul Cow.targetSpeed MathHelper.VECTOR_DOWN
       else MathHelper.VECTOR_ZERO)) ∧
    ((Cow.tick inp dt c r).1.anim.velocity.x = 0 ∨
     (Cow.tick inp dt c r).1.anim.velocity.y = 0) := by
  have hv : (Cow.tick inp dt c r).1.anim.velocity =
      (Cow.tickTarget c t).anim.velocity := by
    unfold Cow.tick
    rw [h]
    exact animTick_velocity _ _ _ _
  refine ⟨?_, ?_⟩
  · rw [hv]
    unfold Cow.tickTarget Cow.targetPadding
    split_ifs <;> rfl
  · rw [hv]
    unfold Cow.tickTarget
    split_ifs <;>
      simp [Vec.smul, MathHelper.VECTOR_LEFT, MathHelper.VECTOR_RIGHT,
        MathHelper.VECTOR_UP, MathHelper.VECTOR_DOWN, MathHelper.VECTOR_ZERO]

/-- Concrete instance of `cow_following_single_axis`: a cow at (100, 0)
following a target at the origin heads left at target speed, with zero y
velocity. -/
theorem cow_following_single_axis_witness :
    ((Cow.tick inp0 (1 / 30) cowT ⟨0, 0⟩).1.anim.velocity =
      (if cowT.anim.position.x > MathHelper.VECTOR_ZERO.x + 40 then
        Vec.smul Cow.targetSpeed MathHelper.VECTOR_LEFT
       else if cowT.anim.position.x < MathHelper.VECTOR_ZERO.x - 40 then
        Vec.smul Cow.targetSpeed MathHelper.VECTOR_RIGHT
       else if cowT.anim.position.y > MathHelper.VECTOR_ZERO.y + 40 then
        Vec.smul Cow.targetSpeed MathHelper.VECTOR_UP
       else if cowT.anim.position.y < MathHelper.VECTOR_ZERO.y - 40 then
        Vec.smul Cow.targetSpeed MathHelper.VECTOR_DOWN
       else MathHelper.VECTOR_ZERO)) ∧
    ((Cow.tick inp0 (1 / 30) cowT ⟨0, 0⟩).1.anim.velocity.x = 0 ∨
     (Cow.tick inp0 (1 / 30) cowT ⟨0, 0⟩).1.anim.velocity.y = 0) :=
  cow_following_single_axis inp0 (1 / 30) cowT ⟨0, 0⟩ MathHelper.VECTOR_ZERO rfl

/-- The win check never touches the person. -/
theorem winCheck_person (s : GameState) : (winCheck s).person = s.person := by
  simp only [winCheck]
  split <;> rfl

/-- The win check never touches the cows. -/
theorem winCheck_cows (s : GameState) : (winCheck s).cows = s.cows := by
  simp only [winCheck]
  split <;> rfl

/-- The win check never touches the fence. -/
theorem winCheck_fence (s : GameState) : (winCheck s).fence = s.fence := by
  simp only [winCheck]
  split <;> rfl

/-- The followed-cow target update never touches the person. -/
theorem applyFollow_person (s : GameState) :
    (applyFollow s).person = s.person := by
  unfold applyFollow
  cases s.followingCow <;> rfl

/-- The followed-cow target update never touches the fence. -/
theorem applyFollow_fence (s : GameState) :
    (applyFollow s).fence = s.fence := by
  unfold applyFollow
  cases s.followingCow <;> rfl

/-- The followed-cow target update never touches the description text. -/
theorem applyFollow_descriptionText (s : GameState) :
    (applyFollow s).descriptionText = s.descriptionText := by
  unfold applyFollow
  cases s.followingCow <;> rfl

/-- The followed-cow target update never touches the description font. -/
theorem applyFollow_descriptionFontSize (s : GameState) :
    (applyFollow s).descriptionFontSize = s.descriptionFontSize := by
  unfold applyFollow
  cases s.followingCow <;> rfl

/-- The person state after the pre-win-check part of a valid tick: the input
velocity is applied, the animating tick moves the person, and the fence
check either rolls the position back one step and zeroes the velocity or
leaves the moved person as is. -/
theorem preWin_person (cfg : Cfg) (inp : Input) (dt : ℚ) (s : GameState) :
    (preWin cfg inp dt s).person =
      (let p2 := animTick Person.arrays Person.distancePerFrame dt
          (Person.setControlledDirection (keyDirection inp) s.person)
       if Fence.isOverlapping (spriteTick dt s.fence) p2.position then
         { p2 with position := Vec.sub p2.position (Vec.smul dt p2.velocity),
                   velocity := MathHelper.VECTOR_ZERO }
       else p2) := by
  simp only [preWin]
  rw [applyFollow_person, applyFollow_fence]

/-- Rolling a position update back: (a + b) - b = a componentwise. -/
theorem Vec.add_sub_cancel (a b : Vec) : Vec.sub (Vec.add a b) b = a := by
  simp [Vec.add, Vec.sub]

/-- Claim C8: in a tick with a valid dt, if the person's post-move position
overlaps the fence, the person's position is rolled back by velocity×dt —
exactly the position at the start of the tick — and the velocity is zeroed;
otherwise neither correction is applied and the person keeps the moved
position and the input-derived velocity. -/
theorem person_fence_hard_stop (cfg : Cfg) (inp : Input) (s : GameState)
    (dt : ℚ) (hdt : inp.dt = DT.fin dt) (h0 : dt ≠ 0) :
    (Fence.isOverlapping (spriteTick dt s.fence)
        (Vec.add s.person.position
          (Vec.smul dt (Vec.smul Person.speed (keyDirection inp)))) = true →
      (gmTick cfg inp s).person.position = s.person.position ∧
      (gmTick cfg inp s).person.velocity = MathHelper.VECTOR_ZERO) ∧
    (Fence.isOverlapping (spriteTick dt s.fence)
        (Vec.add s.person.position
          (Vec.smul dt (Vec.smul Person.speed (keyDirection inp)))) = false →
      (gmTick cfg inp s).person.position =
        Vec.add s.person.position
          (Vec.smul dt (Vec.smul Person.speed (keyDirection inp))) ∧
      (gmTick cfg inp s).person.velocity =
        Vec.smul Person.speed (keyDirection inp)) := by
  have hg : (gmTick cfg inp s).person = (preWin cfg inp dt s).person := by
    simp [gmTick, hdt, h0, winCheck_person]
  have hpos : (animTick Person.arrays Person.distancePerFrame dt
      (Person.setControlledDirection (keyDirection inp) s.person)).position =
      Vec.add s.person.position
        (Vec.smul dt (Vec.smul Person.speed (keyDirection inp))) := by
    rw [animTick_position]
    rfl
  have hvel : (animTick Person.arrays Person.distancePerFrame dt
      (Person.setControlledDirection (keyDirection inp) s.person)).velocity =
      Vec.smul Person.speed (keyDirection inp) := by
    rw [animTick_velocity]
    rfl
  rw [hg, preWin_person]
  simp only [hpos, hvel]
  constructor
  · intro hov
    rw [if_pos hov]
    exact ⟨Vec.add_sub_cancel _ _, rfl⟩
  · intro hov
    rw [if_neg (by simp [hov])]
    exact ⟨rfl, rfl⟩

/-- Concrete instance of `person_fence_hard_stop` at dt = 1/30 on a freshly
set up state. -/
theorem person_fence_hard_stop_witness :
    (Fence.isOverlapping
        (spriteTick (1 / 30) (initialState cfg0 ⟨1, 2⟩ ⟨3, 4⟩ ⟨5, 6⟩).fence)
        (Vec.add (initialState cfg0 ⟨1, 2⟩ ⟨3, 4⟩ ⟨5, 6⟩).person.position
          (Vec.smul (1 / 30)
            (Vec.smul Person.speed (keyDirection inp0)))) = true →
      (gmTick cfg0 inp0 (initialState cfg0 ⟨1, 2⟩ ⟨3, 4⟩ ⟨5, 6⟩)).person.position =
        (initialState cfg0 ⟨1, 2⟩ ⟨3, 4⟩ ⟨5, 6⟩).person.position ∧
      (gmTick cfg0 inp0 (initialState cfg0 ⟨1, 2⟩ ⟨3, 4⟩ ⟨5, 6⟩)).person.velocity =
        MathHelper.VECTOR_ZERO) ∧
    (Fence.isOverlapping
        (spriteTick (1 / 30) (initialState cfg0 ⟨1, 2⟩ ⟨3, 4⟩ ⟨5, 6⟩).fence)
        (Vec.add (initialState cfg0 ⟨1, 2⟩ ⟨3, 4⟩ ⟨5, 6⟩).person.position
          (Vec.smul (1 / 30)
            (Vec.smul Person.speed (keyDirection inp0)))) = false →
      (gmTick cfg0 inp0 (initialState cfg0 ⟨1, 2⟩ ⟨3, 4⟩ ⟨5, 6⟩)).person.position =
        Vec.add (initialState cfg0 ⟨1, 2⟩ ⟨3, 4⟩ ⟨5, 6⟩).person.position
          (Vec.smul (1 / 30)
            (Vec.smul Person.speed (keyDirection inp0))) ∧
      (gmTick cfg0 inp0 (initialState cfg0 ⟨1, 2⟩ ⟨3, 4⟩ ⟨5, 6⟩)).person.velocity =
        Vec.smul Person.speed (keyDirection inp0)) :=
  person_fence_hard_stop cfg0 inp0 (initialState cfg0 ⟨1, 2⟩ ⟨3, 4⟩ ⟨5, 6⟩)
    (1 / 30) rfl (by norm_num)

/-- The pre-win-check part of a tick never touches the description text. -/
theorem preWin_descriptionText (cfg : Cfg) (inp : Input) (dt : ℚ)
    (s : GameState) :
    (preWin cfg inp dt s).descriptionText = s.descriptionText := by
  simp only [preWin]
  rw [applyFollow_descriptionText]

/-- The pre-win-check part of a tick never touches the description font. -/
theorem preWin_descriptionFontSize (cfg : Cfg) (inp : Input) (dt : ℚ)
    (s : GameState) :
    (preWin cfg inp dt s).descriptionFontSize = s.descriptionFontSize := by
  simp only [preWin]
  rw [applyFollow_descriptionFontSize]

/-- When every cow is inside the fence's interior bound, the win check
switches the description to the success state. -/
theorem winCheck_success (s : GameState)
    (h : ∀ c ∈ s.cows, MathHelper.positionInBounds c.anim.position
      s.fence.position s.fence.size = true) :
    (winCheck s).descriptionText = DescText.success ∧
    (winCheck s).descriptionFontSize =
      GameManager.descriptionSuccessFontSize := by
  have hf : (s.cows.filter fun c => ! MathHelper.positionInBounds
      c.anim.position s.fence.position s.fence.size) = [] := by
    rw [List.filter_eq_nil_iff]
    intro c hc
    simp [h c hc]
  simp only [winCheck, hf]
  simp

/-- When some cow is outside the fence's interior bound, the win check
leaves the state untouched. -/
theorem winCheck_keep (s : GameState) (c : CowState) (hc : c ∈ s.cows)
    (h : MathHelper.positionInBounds c.anim.position s.fence.position
      s.fence.size = false) :
    winCheck s = s := by
  have hmem : c ∈ s.cows.filter fun c => ! MathHelper.positionInBounds
      c.anim.position s.fence.position s.fence.size :=
    List.mem_filter.mpr ⟨hc, by simp [h]⟩
  have hne : (s.cows.filter fun c => ! MathHelper.positionInBounds
      c.anim.position s.fence.position s.fence.size).length ≠ 0 := by
    intro h0
    rw [List.length_eq_zero] at h0
    rw [h0] at hmem
    exact absurd hmem (List.not_mem_nil c)
  simp only [winCheck]
  rw [if_neg hne]

/-- Claim C2: at the end of a tick with a valid dt, the description is
switched to the success text and font size whenever every cow's position is
inside the fence's interior bound at that point; should any cow be outside
that bound, both description fields are left exactly as they were. -/
theorem tick_win_description (cfg : Cfg) (inp : Input) (s : GameState)
    (dt : ℚ) (hdt : inp.dt = DT.fin dt) (h0 : dt ≠ 0) :
    ((∀ c ∈ (gmTick cfg inp s).cows,
        MathHelper.positionInBounds c.anim.position
          (gmTick cfg inp s).fence.position (gmTick cfg inp s).fence.size =
          true) →
      (gmTick cfg inp s).descriptionText = DescText.success ∧
      (gmTick cfg inp s).descriptionFontSize =
        GameManager.descriptionSuccessFontSize) ∧
    (∀ c ∈ (gmTick cfg inp s).cows,
      MathHelper.positionInBounds c.anim.position
        (gmTick cfg inp s).fence.position (gmTick cfg inp s).fence.size =
        false →
      (gmTick cfg inp s).descriptionText = s.descriptionText ∧
      (gmTick cfg inp s).descriptionFontSize = s.descriptionFontSize) := by
  have hg : gmTick cfg inp s = winCheck (preWin cfg inp dt s) := by
    simp [gmTick, hdt, h0]
  rw [hg, winCheck_cows, winCheck_fence]
  constructor
  · intro h
    exact winCheck_success (preWin cfg inp dt s) h
  · intro c hc hout
    rw [winCheck_keep (preWin cfg inp dt s) c hc hout]
    exact ⟨preWin_descriptionText cfg inp dt s,
      preWin_descriptionFontSize cfg inp dt s⟩

/-- Concrete instance of `tick_win_description` at dt = 1/30 on a freshly
set up state. -/
theorem tick_win_description_witness :
    ((∀ c ∈ (gmTick cfg0 inp0 (initialState cfg0 ⟨1, 2⟩ ⟨3, 4⟩ ⟨5, 6⟩)).cows,
        MathHelper.positionInBounds c.anim.position
          (gmTick cfg0 inp0 (initialState cfg0 ⟨1, 2⟩ ⟨3, 4⟩ ⟨5, 6⟩)).fence.position
          (gmTick cfg0 inp0 (initialState cfg0 ⟨1, 2⟩ ⟨3, 4⟩ ⟨5, 6⟩)).fence.size =
          true) →
      (gmTick cfg0 inp0 (initialState cfg0 ⟨1, 2⟩ ⟨3, 4⟩ ⟨5, 6⟩)).descriptionText =
        DescText.success ∧
      (gmTick cfg0 inp0 (initialState cfg0 ⟨1, 2⟩ ⟨3, 4⟩ ⟨5, 6⟩)).descriptionFontSize =
        GameManager.descriptionSuccessFontSize) ∧
    (∀ c ∈ (gmTick cfg0 inp0 (initialState cfg0 ⟨1, 2⟩ ⟨3, 4⟩ ⟨5, 6⟩)).cows,
      MathHelper.positionInBounds c.anim.position
        (gmTick cfg0 inp0 (initialState cfg0 ⟨1, 2⟩ ⟨3, 4⟩ ⟨5, 6⟩)).fence.position
        (gmTick cfg0 inp0 (initialState cfg0 ⟨1, 2⟩ ⟨3, 4⟩ ⟨5, 6⟩)).fence.size =
        false →
      (gmTick cfg0 inp0 (initialState cfg0 ⟨1, 2⟩ ⟨3, 4⟩ ⟨5, 6⟩)).descriptionText =
        (initialState cfg0 ⟨1, 2⟩ ⟨3, 4⟩ ⟨5, 6⟩).descriptionText ∧
      (gmTick cfg0 inp0 (initialState cfg0 ⟨1, 2⟩ ⟨3, 4⟩ ⟨5, 6⟩)).descriptionFontSize =
        (initialState cfg0 ⟨1, 2⟩ ⟨3, 4⟩ ⟨5, 6⟩).descriptionFontSize) :=
  tick_win_description cfg0 inp0 (initialState cfg0 ⟨1, 2⟩ ⟨3, 4⟩ ⟨5, 6⟩)
    (1 / 30) rfl (by norm_num)

/-- A tick either keeps both description fields or sets them to the success
state; it never writes anything else to them. -/
theorem gmTick_description_or (cfg : Cfg) (inp : Input) (s : GameState) :
    ((gmTick cfg inp s).descriptionText = s.descriptionText ∧
     (gmTick cfg inp s).descriptionFontSize = s.descriptionFontSize) ∨
    ((gmTick cfg inp s).descriptionText = DescText.success ∧
     (gmTick cfg inp s).descriptionFontSize =
       GameManager.descriptionSuccessFontSize) := by
  cases hdt : inp.dt with
  | fin q =>
    by_cases h0 : q = 0
    · left
      simp [gmTick, hdt, h0]
    · have hg : gmTick cfg inp s = winCheck (preWin cfg inp q s) := by
        simp [gmTick, hdt, h0]
      rw [hg]
      simp only [winCheck]
      split
      · right
        exact ⟨rfl, rfl⟩
      · left
        exact ⟨preWin_descriptionText cfg inp q s,
          preWin_descriptionFontSize cfg inp q s⟩
  | posInf =>
    left
    simp [gmTick, hdt]
  | negInf =>
    left
    simp [gmTick, hdt]
  | nan =>
    left
    simp [gmTick, hdt]

/-- keyTyped never touches the description fields. -/
theorem gmKeyTyped_description (k : Char) (s : GameState) :
    (gmKeyTyped k s).descriptionText = s.descriptionText ∧
    (gmKeyTyped k s).descriptionFontSize = s.descriptionFontSize := by
  simp only [gmKeyTyped]
  split
  · cases hf : s.followingCow with
    | none =>
      cases hi : List.findIdx? (fun c =>
          distLt s.person.position c.anim.position GameManager.cowRange)
          s.cows with
      | none => simp [hf, hi]
      | some i => simp [hf, hi]
    | some i => simp [hf]
  · exact ⟨rfl, rfl⟩

/-- Claim C3: once the description text and font size are in the success
state, every subsequent sequence of tick, draw and keyTyped operations
leaves them in the success state — there is no transition back to the
instructional state. -/
theorem success_description_persists (cfg : Cfg) (ops : List Op)
    (s : GameState) (ht : s.descriptionText = DescText.success)
    (hf : s.descriptionFontSize = GameManager.descriptionSuccessFontSize) :
    (applyOps cfg ops s).descriptionText = DescText.success ∧
    (applyOps cfg ops s).descriptionFontSize =
      GameManager.descriptionSuccessFontSize := by
  induction ops generalizing s with
  | nil => exact ⟨ht, hf⟩
  | cons op rest ih =>
    have hstep : (applyOp cfg s op).descriptionText = DescText.success ∧
        (applyOp cfg s op).descriptionFontSize =
          GameManager.descriptionSuccessFontSize := by
      cases op with
      | tick inp =>
        rcases gmTick_description_or cfg inp s with ⟨h1, h2⟩ | ⟨h1, h2⟩
        · exact ⟨h1.trans ht, h2.trans hf⟩
        · exact ⟨h1, h2⟩
      | draw => exact ⟨ht, hf⟩
      | keyTyped k =>
        obtain ⟨h1, h2⟩ := gmKeyTyped_description k s
        exact ⟨h1.trans ht, h2.trans hf⟩
    exact ih (applyOp cfg s op) hstep.1 hstep.2

/-- Concrete instance of `success_description_persists`: starting from a
success-state description, a draw, a space key press and a valid tick keep
the success description. -/
theorem success_description_persists_witness :
    (applyOps cfg0 [Op.draw, Op.keyTyped ' ', Op.tick inp0]
        { initialState cfg0 ⟨1, 2⟩ ⟨3, 4⟩ ⟨5, 6⟩ with
            descriptionText := DescText.success,
            descriptionFontSize :=
              GameManager.descriptionSuccessFontSize }).descriptionText =
      DescText.success ∧
    (applyOps cfg0 [Op.draw, Op.keyTyped ' ', Op.tick inp0]
        { initialState cfg0 ⟨1, 2⟩ ⟨3, 4⟩ ⟨5, 6⟩ with
            descriptionText := DescText.success,
            descriptionFontSize :=
              GameManager.descriptionSuccessFontSize }).descriptionFontSize =
      GameManager.descriptionSuccessFontSize :=
  success_description_persists cfg0 [Op.draw, Op.keyTyped ' ', Op.tick inp0]
    _ rfl rfl

/-- A NORMAL-mode cow whose roll does not come up toggles nothing: its tick
is just the animating tick, consuming one roll. -/
theorem cowTick_noToggle (inp : Input) (dt : ℚ) (c : CowState) (r : RCnt)
    (htg : c.targetPosition = none)
    (hroll : ¬ inp.rolls r.ri < 1 / 10 * dt) :
    Cow.tick inp dt c r =
      ({ c with anim := animTick Cow.arrays Cow.distancePerFrame dt c.anim },
        ⟨r.ri + 1, r.di⟩) := by
  unfold Cow.tick Cow.tickNormal
  rw [htg]
  simp only [if_neg hroll]
  rw [htg]

/-- A cow overlapping the fence gets its velocity negated and its tick
re-run. -/
theorem fenceCollide_fire (fence : SpriteState) (inp : Input) (dt : ℚ)
    (c : CowState) (r : RCnt)
    (h : Fence.isOverlapping fence c.anim.position = true) :
    fenceCollide fence inp dt c r =
      Cow.tick inp dt { c with anim := { c.anim with velocity := Vec.smul (-1) c.anim.velocity } } r := by
  unfold fenceCollide
  rw [if_pos h]

/-- A cow inside the inset play-area bounds passes the edge check
untouched. -/
theorem edgeCollide_noFire (cfg : Cfg) (inp : Input) (dt : ℚ) (c : CowState)
    (r : RCnt)
    (h : MathHelper.positionInBounds c.anim.position MathHelper.VECTOR_ZERO
      (gameBoundsOf cfg) = true) :
    edgeCollide cfg inp dt c r = (c, r) := by
  unfold edgeCollide
  rw [h]
  simp

/-- A cow outside the inset play-area bounds gets its velocity negated and
its tick re-run. -/
theorem edgeCollide_fire (cfg : Cfg) (inp : Input) (dt : ℚ) (c : CowState)
    (r : RCnt)
    (h : MathHelper.positionInBounds c.anim.position MathHelper.VECTOR_ZERO
      (gameBoundsOf cfg) = false) :
    edgeCollide cfg inp dt c r =
      Cow.tick inp dt { c with anim := { c.anim with velocity := Vec.smul (-1) c.anim.velocity } } r := by
  unfold edgeCollide
  rw [h]
  simp

/-- Negating a leftward normal-speed velocity gives the rightward one. -/
theorem neg_normal_left :
    Vec.smul (-1) (Vec.smul Cow.normalSpeed MathHelper.VECTOR_LEFT) =
      Vec.smul Cow.normalSpeed MathHelper.VECTOR_RIGHT := by
  simp only [Vec.smul, MathHelper.VECTOR_LEFT, MathHelper.VECTOR_RIGHT,
    Vec.mk.injEq]
  constructor <;> ring

/-- Negating a rightward normal-speed velocity gives the leftward one. -/
theorem neg_normal_right :
    Vec.smul (-1) (Vec.smul Cow.normalSpeed MathHelper.VECTOR_RIGHT) =
      Vec.smul Cow.normalSpeed MathHelper.VECTOR_LEFT := by
  simp only [Vec.smul, MathHelper.VECTOR_LEFT, MathHelper.VECTOR_RIGHT,
    Vec.mk.injEq]
  constructor <;> ring

/-- One step at rightward normal speed. -/
theorem step_normal_right (dt : ℚ) :
    Vec.smul dt (Vec.smul Cow.normalSpeed MathHelper.VECTOR_RIGHT) =
      (⟨Cow.normalSpeed * dt, 0⟩ : Vec) := by
  simp only [Vec.smul, MathHelper.VECTOR_RIGHT, Vec.mk.injEq]
  constructor <;> ring

/-- A componentwise way to prove a vector equals an opaque vector. -/
theorem vec_eta_eq (v : Vec) (a b : ℚ) (ha : a = v.x) (hb : b = v.y) :
    (⟨a, b⟩ : Vec) = v := by
  rw [ha, hb]

/-- Claim C6: in the per-cow collision pass of GameManager.tick, a cow that
neither overlaps the fence nor is outside the inset play-area bounds is left
untouched; a NORMAL cow moving left at normal speed that overlaps the fence
(and whose re-tick roll does not toggle its behavior) has its velocity
negated and its tick re-run with the same dt, moving it back by exactly the
step it just took; and when the corrected position is also outside the
play-area bounds, the independent edge check fires in the same frame as
well, returning the cow to its pre-correction position with its original
velocity. -/
theorem cow_collision_response (cfg : Cfg) (fence : SpriteState)
    (inp : Input) (dt : ℚ) (c : CowState) (r : RCnt) :
    ((Fence.isOverlapping fence c.anim.position = false ∧
      MathHelper.positionInBounds c.anim.position MathHelper.VECTOR_ZERO
        (gameBoundsOf cfg) = true) →
      collideStep cfg fence inp dt c r = (c, r)) ∧
    ((c.targetPosition = none ∧
      c.anim.velocity = Vec.smul Cow.normalSpeed MathHelper.VECTOR_LEFT ∧
      Fence.isOverlapping fence c.anim.position = true ∧
      ¬ inp.rolls r.ri < 1 / 10 * dt ∧
      MathHelper.positionInBounds
        (Vec.add c.anim.position ⟨Cow.normalSpeed * dt, 0⟩)
        MathHelper.VECTOR_ZERO (gameBoundsOf cfg) = true) →
      (collideStep cfg fence inp dt c r).1.anim.position =
        Vec.add c.anim.position ⟨Cow.normalSpeed * dt, 0⟩ ∧
      (collideStep cfg fence inp dt c r).1.anim.velocity =
        Vec.smul Cow.normalSpeed MathHelper.VECTOR_RIGHT) ∧
    ((c.targetPosition = none ∧
      c.anim.velocity = Vec.smul Cow.normalSpeed MathHelper.VECTOR_LEFT ∧
      Fence.isOverlapping fence c.anim.position = true ∧
      ¬ inp.rolls r.ri < 1 / 10 * dt ∧
      ¬ inp.rolls (r.ri + 1) < 1 / 10 * dt ∧
      MathHelper.positionInBounds
        (Vec.add c.anim.position ⟨Cow.normalSpeed * dt, 0⟩)
        MathHelper.VECTOR_ZERO (gameBoundsOf cfg) = false) →
      (collideStep cfg fence inp dt c r).1.anim.position =
        c.anim.position ∧
      (collideStep cfg fence inp dt c r).1.anim.velocity =
        Vec.smul Cow.normalSpeed MathHelper.VECTOR_LEFT) := by
  refine ⟨?_, ?_, ?_⟩
  · rintro ⟨hov, hin⟩
    simp [collideStep, fenceCollide, edgeCollide, hov, hin]
  · rintro ⟨htg, hvel, hov, hroll, hin⟩
    have hpos1 : (animTick Cow.arrays Cow.distancePerFrame dt { c.anim with velocity := Vec.smul (-1) c.anim.velocity }).position =
        Vec.add c.anim.position (⟨Cow.normalSpeed * dt, 0⟩ : Vec) := by
      rw [animTick_position]
      show Vec.add c.anim.position
        (Vec.smul dt (Vec.smul (-1) c.anim.velocity)) = _
      rw [hvel, neg_normal_left, step_normal_right]
    have hvel1 : (animTick Cow.arrays Cow.distancePerFrame dt { c.anim with velocity := Vec.smul (-1) c.anim.velocity }).velocity =
        Vec.smul Cow.normalSpeed MathHelper.VECTOR_RIGHT := by
      rw [animTick_velocity]
      show Vec.smul (-1) c.anim.velocity = _
      rw [hvel, neg_normal_left]
    have e1 : collideStep cfg fence inp dt c r =
        edgeCollide cfg inp dt ({ c with anim := animTick Cow.arrays Cow.distancePerFrame dt { c.anim with velocity := Vec.smul (-1) c.anim.velocity } }) ⟨r.ri + 1, r.di⟩ := by
      simp only [collideStep]
      rw [fenceCollide_fire fence inp dt c r hov,
        cowTick_noToggle inp dt { c with anim := { c.anim with velocity := Vec.smul (-1) c.anim.velocity } } r htg hroll]
    rw [e1, edgeCollide_noFire cfg inp dt _ _ (by rw [show ({ c with anim := animTick Cow.arrays Cow.distancePerFrame dt { c.anim with velocity := Vec.smul (-1) c.anim.velocity } } : CowState).anim.position = (animTick Cow.arrays Cow.distancePerFrame dt { c.anim with velocity := Vec.smul (-1) c.anim.velocity }).position from rfl, hpos1]; exact hin)]
    exact ⟨hpos1, hvel1⟩
  · rintro ⟨htg, hvel, hov, hroll, hroll2, hout⟩
    have hpos1 : (animTick Cow.arrays Cow.distancePerFrame dt { c.anim with velocity := Vec.smul (-1) c.anim.velocity }).position =
        Vec.add c.anim.position (⟨Cow.normalSpeed * dt, 0⟩ : Vec) := by
      rw [animTick_position]
      show Vec.add c.anim.position
        (Vec.smul dt (Vec.smul (-1) c.anim.velocity)) = _
      rw [hvel, neg_normal_left, step_normal_right]
    have hvel1 : (animTick Cow.arrays Cow.distancePerFrame dt { c.anim with velocity := Vec.smul (-1) c.anim.velocity }).velocity =
        Vec.smul Cow.normalSpeed MathHelper.VECTOR_RIGHT := by
      rw [animTick_velocity]
      show Vec.smul (-1) c.anim.velocity = _
      rw [hvel, neg_normal_left]
    have e1 : collideStep cfg fence inp dt c r =
        edgeCollide cfg inp dt ({ c with anim := animTick Cow.arrays Cow.distancePerFrame dt { c.anim with velocity := Vec.smul (-1) c.anim.velocity } }) ⟨r.ri + 1, r.di⟩ := by
      simp only [collideStep]
      rw [fenceCollide_fire fence inp dt c r hov,
        cowTick_noToggle inp dt { c with anim := { c.anim with velocity := Vec.smul (-1) c.anim.velocity } } r htg hroll]
    have e2 : edgeCollide cfg inp dt ({ c with anim := animTick Cow.arrays Cow.distancePerFrame dt { c.anim with velocity := Vec.smul (-1) c.anim.velocity } }) ⟨r.ri + 1, r.di⟩ =
        Cow.tick inp dt ({ c with anim := { (animTick Cow.arrays Cow.distancePerFrame dt { c.anim with velocity := Vec.smul (-1) c.anim.velocity }) with velocity := Vec.smul (-1) (animTick Cow.arrays Cow.distancePerFrame dt { c.anim with velocity := Vec.smul (-1) c.anim.velocity }).velocity } }) ⟨r.ri + 1, r.di⟩ := by
      exact edgeCollide_fire cfg inp dt _ _ (by rw [show ({ c with anim := animTick Cow.arrays Cow.distancePerFrame dt { c.anim with velocity := Vec.smul (-1) c.anim.velocity } } : CowState).anim.position = (animTick Cow.arrays Cow.distancePerFrame dt { c.anim with velocity := Vec.smul (-1) c.anim.velocity }).position from rfl, hpos1]; exact hout)
    have e3 : Cow.tick inp dt ({ c with anim := { (animTick Cow.arrays Cow.distancePerFrame dt { c.anim with velocity := Vec.smul (-1) c.anim.velocity }) with velocity := Vec.smul (-1) (animTick Cow.arrays Cow.distancePerFrame dt { c.anim with velocity := Vec.smul (-1) c.anim.velocity }).velocity } }) ⟨r.ri + 1, r.di⟩ =
        ({ c with anim := animTick Cow.arrays Cow.distancePerFrame dt { (animTick Cow.arrays Cow.distancePerFrame dt { c.anim with velocity := Vec.smul (-1) c.anim.velocity }) with velocity := Vec.smul (-1) (animTick Cow.arrays Cow.distancePerFrame dt { c.anim with velocity := Vec.smul (-1) c.anim.velocity }).velocity } },
          ⟨r.ri + 1 + 1, r.di⟩) :=
      cowTick_noToggle inp dt _ ⟨r.ri + 1, r.di⟩ htg hroll2
    rw [e1, e2, e3]
    constructor
    · rw [animTick_position]
      show Vec.add (animTick Cow.arrays Cow.distancePerFrame dt { c.anim with velocity := Vec.smul (-1) c.anim.velocity }).position (Vec.smul dt (Vec.smul (-1) (animTick Cow.arrays Cow.distancePerFrame dt { c.anim with velocity := Vec.smul (-1) c.anim.velocity }).velocity)) = c.anim.position
      rw [hpos1, hvel1, neg_normal_right]
      simp only [Vec.add, Vec.smul, MathHelper.VECTOR_LEFT]
      exact vec_eta_eq _ _ _ (by ring) (by ring)
    · rw [animTick_velocity]
      show Vec.smul (-1) (animTick Cow.arrays Cow.distancePerFrame dt { c.anim with velocity := Vec.smul (-1) c.anim.velocity }).velocity =
        Vec.smul Cow.normalSpeed MathHelper.VECTOR_LEFT
      rw [hvel1, neg_normal_right]

/-- Concrete instance of `cow_collision_response`: the cow at (-200, 0)
inside the fence ring moving left at dt = 1/30 is bounced back right by
exactly one step. -/
theorem cow_collision_response_witness :
    (collideStep cfg0 (mkFence MathHelper.VECTOR_ZERO) inp0 (1 / 30) cow0
        ⟨0, 0⟩).1.anim.position =
      Vec.add cow0.anim.position ⟨Cow.normalSpeed * (1 / 30), 0⟩ ∧
    (collideStep cfg0 (mkFence MathHelper.VECTOR_ZERO) inp0 (1 / 30) cow0
        ⟨0, 0⟩).1.anim.velocity =
      Vec.smul Cow.normalSpeed MathHelper.VECTOR_RIGHT :=
  (cow_collision_response cfg0 (mkFence MathHelper.VECTOR_ZERO) inp0 (1 / 30)
      cow0 ⟨0, 0⟩).2.1
    ⟨rfl, rfl,
      by
        simp [cow0, mkCow, mkAnim, mkFence, Fence.isOverlapping,
          MathHelper.positionInBounds, Fence.size, Fence.edgeWidth,
          Fence.openingSize, MathHelper.VECTOR_ONE, MathHelper.VECTOR_ZERO,
          MathHelper.VECTOR_LEFT, Vec.add, Vec.sub, Vec.smul, Cow.size,
          Cow.normalSpeed]
        norm_num,
      by norm_num [inp0],
      by
        simp [cow0, mkCow, mkAnim, MathHelper.positionInBounds,
          gameBoundsOf, GameManager.edgeWidth, cfg0, MathHelper.VECTOR_ONE,
          MathHelper.VECTOR_ZERO, MathHelper.VECTOR_LEFT, Vec.add, Vec.sub,
          Vec.smul, Cow.size, Cow.normalSpeed]
        norm_num⟩

/-- Claim C7 (refuting the dt part): GameManager.setup calls the tick
routine exactly 10 times, but `tick()` declares no parameter, so the
`{dt: 1.0/30}` argument of each warm-up call is ignored; each call derives
its dt from `frameRate()`, which before the first draw is an invalid
reading (the source's own comment: "p5.js has a quirk that returns weird
values for frameRate() before draw is called").  With those readings every
warm-up tick is skipped, so setup returns the constructor state unchanged —
in particular the person's elapsed time is 0, while a genuine tick at
dt = 1/30 (shown for contrast) would have advanced it to 1/30. -/
theorem setup_warmup_ignores_dt :
    gmSetup cfg0 ⟨1, 2⟩ ⟨3, 4⟩ ⟨5, 6⟩ (fun _ => badInp) =
      initialState cfg0 ⟨1, 2⟩ ⟨3, 4⟩ ⟨5, 6⟩ ∧
    (initialState cfg0 ⟨1, 2⟩ ⟨3, 4⟩ ⟨5, 6⟩).person.elapsedTime = 0 ∧
    (gmTick cfg0 inp0
        (initialState cfg0 ⟨1, 2⟩ ⟨3, 4⟩ ⟨5, 6⟩)).person.elapsedTime =
      1 / 30 := by
  refine ⟨rfl, rfl, ?_⟩
  have hg : gmTick cfg0 inp0 (initialState cfg0 ⟨1, 2⟩ ⟨3, 4⟩ ⟨5, 6⟩) =
      winCheck (preWin cfg0 inp0 (1 / 30)
        (initialState cfg0 ⟨1, 2⟩ ⟨3, 4⟩ ⟨5, 6⟩)) := by
    show (if (1 / 30 : ℚ) = 0 then _ else _) = _
    rw [if_neg (by norm_num)]
  rw [hg, winCheck_person, preWin_person]
  have hov : Fence.isOverlapping
      (spriteTick (1 / 30) (initialState cfg0 ⟨1, 2⟩ ⟨3, 4⟩ ⟨5, 6⟩).fence)
      ((animTick Person.arrays Person.distancePerFrame (1 / 30)
        (Person.setControlledDirection (keyDirection inp0)
          (initialState cfg0 ⟨1, 2⟩ ⟨3, 4⟩ ⟨5, 6⟩).person)).position) =
      false := by
    rw [animTick_position]
    simp [initialState, mkPerson, mkAnim, mkFence, spriteTick,
      Person.setControlledDirection, keyDirection, inp0, Person.speed,
      Person.arrays, Person.size, Fence.isOverlapping,
      MathHelper.positionInBounds, Fence.size, Fence.edgeWidth,
      Fence.openingSize, MathHelper.VECTOR_ONE, MathHelper.VECTOR_ZERO,
      Vec.add, Vec.sub, Vec.smul]
    norm_num
  simp only [hov, Bool.false_eq_true, if_false]
  rw [animTick_elapsedTime]
  show (0 : ℚ) + 1 / 30 = 1 / 30
  norm_num

/-- Negating (or any scaling of) an axis-aligned velocity keeps it
axis-aligned. -/
theorem axisAligned_smul (q : ℚ) (v : Vec) (h : axisAligned v) :
    axisAligned (Vec.smul q v) := by
  rcases h with h | h
  · exact Or.inl (by simp [Vec.smul, h])
  · exact Or.inr (by simp [Vec.smul, h])

/-- A cardinal direction scaled by a speed is axis-aligned. -/
theorem axisAligned_dirSpeed (q : ℚ) (d : Dir4) :
    axisAligned (Vec.smul q (Dir4.vec d)) := by
  cases d <;>
    simp [axisAligned, Vec.smul, Dir4.vec, MathHelper.VECTOR_LEFT,
      MathHelper.VECTOR_RIGHT, MathHelper.VECTOR_UP, MathHelper.VECTOR_DOWN]

/-- FOLLOWING behavior only ever produces axis-aligned velocities. -/
theorem tickTarget_aligned (c : CowState) (t : Vec) :
    axisAligned ((Cow.tickTarget c t).anim.velocity) := by
  simp only [Cow.tickTarget]
  split_ifs <;>
    simp [axisAligned, Vec.smul, MathHelper.VECTOR_LEFT,
      MathHelper.VECTOR_RIGHT, MathHelper.VECTOR_UP, MathHelper.VECTOR_DOWN,
      MathHelper.VECTOR_ZERO]

/-- A cow tick keeps the velocity axis-aligned in both behavior modes. -/
theorem cowTick_aligned (inp : Input) (dt : ℚ) (c : CowState) (r : RCnt)
    (h : axisAligned c.anim.velocity) :
    axisAligned ((Cow.tick inp dt c r).1.anim.velocity) := by
  unfold Cow.tick
  cases htg : c.targetPosition with
  | some t =>
    simp only [htg, animTick_velocity]
    exact tickTarget_aligned c t
  | none =>
    simp only [htg, animTick_velocity]
    simp only [Cow.tickNormal]
    split_ifs with h1 h2
    · exact Or.inl rfl
    · exact axisAligned_dirSpeed _ _
    · exact h

/-- The fence collision response keeps the velocity axis-aligned. -/
theorem fenceCollide_aligned (fence : SpriteState) (inp : Input) (dt : ℚ)
    (c : CowState) (r : RCnt) (h : axisAligned c.anim.velocity) :
    axisAligned ((fenceCollide fence inp dt c r).1.anim.velocity) := by
  unfold fenceCollide
  split_ifs with h1
  · exact cowTick_aligned inp dt _ r (axisAligned_smul (-1) _ h)
  · exact h

/-- The edge collision response keeps the velocity axis-aligned. -/
theorem edgeCollide_aligned (cfg : Cfg) (inp : Input) (dt : ℚ)
    (c : CowState) (r : RCnt) (h : axisAligned c.anim.velocity) :
    axisAligned ((edgeCollide cfg inp dt c r).1.anim.velocity) := by
  unfold edgeCollide
  split_ifs with h1
  · exact cowTick_aligned inp dt _ r (axisAligned_smul (-1) _ h)
  · exact h

/-- The whole per-cow collision pass keeps the velocity axis-aligned. -/
theorem collideStep_aligned (cfg : Cfg) (fence : SpriteState) (inp : Input)
    (dt : ℚ) (c : CowState) (r : RCnt) (h : axisAligned c.anim.velocity) :
    axisAligned ((collideStep cfg fence inp dt c r).1.anim.velocity) := by
  simp only [collideStep]
  exact edgeCollide_aligned cfg inp dt _ _
    (fenceCollide_aligned fence inp dt c r h)

/-- mapThread preserves a pointwise property preserved by the step. -/
theorem mapThread_pres {α σ : Type} (P : α → Prop) (f : α → σ → α × σ)
    (hf : ∀ a s, P a → P (f a s).1) :
    ∀ (l : List α) (s : σ), (∀ a ∈ l, P a) →
      ∀ b ∈ (mapThread f l s).1, P b := by
  intro l
  induction l with
  | nil =>
    intro s h b hb
    simp [mapThread] at hb
  | cons a as ih =>
    intro s h b hb
    simp only [mapThread] at hb
    rcases List.mem_cons.mp hb with hb | hb
    · exact hb ▸ hf a s (h a (List.mem_cons_self a as))
    · exact ih (f a s).2 (fun x hx => h x (List.mem_cons_of_mem a hx)) b hb

/-- modifyIdx preserves a pointwise property preserved by the function. -/
theorem modifyIdx_pres {α : Type} (P : α → Prop) (f : α → α)
    (hf : ∀ a, P a → P (f a)) :
    ∀ (l : List α) (i : ℕ), (∀ a ∈ l, P a) → ∀ b ∈ modifyIdx l i f, P b := by
  intro l
  induction l with
  | nil =>
    intro i h b hb
    simp [modifyIdx] at hb
  | cons a as ih =>
    intro i h b hb
    cases i with
    | zero =>
      simp only [modifyIdx] at hb
      rcases List.mem_cons.mp hb with hb | hb
      · exact hb ▸ hf a (h a (List.mem_cons_self a as))
      · exact h b (List.mem_cons_of_mem a hb)
    | succ n =>
      simp only [modifyIdx] at hb
      rcases List.mem_cons.mp hb with hb | hb
      · exact hb ▸ h a (List.mem_cons_self a as)
      · exact ih n (fun x hx => h x (List.mem_cons_of_mem a hx)) b hb

/-- Setting or keeping a followed cow's target keeps cow velocities
axis-aligned. -/
theorem applyFollow_cowsAligned (s : GameState) (h : cowsAligned s) :
    cowsAligned (applyFollow s) := by
  unfold cowsAligned at *
  unfold applyFollow
  cases hf : s.followingCow with
  | none => exact h
  | some i =>
    intro b hb
    exact modifyIdx_pres (fun a => axisAligned a.anim.velocity)
      (fun c => { c with targetPosition := some s.person.position })
      (fun a ha => ha) s.cows i h b hb

/-- A whole GameManager tick keeps all cow velocities axis-aligned. -/
theorem gmTick_cowsAligned (cfg : Cfg) (inp : Input) (s : GameState)
    (h : cowsAligned s) : cowsAligned (gmTick cfg inp s) := by
  cases hdt : inp.dt with
  | posInf => simpa [gmTick, hdt] using h
  | negInf => simpa [gmTick, hdt] using h
  | nan => simpa [gmTick, hdt] using h
  | fin q =>
    by_cases h0 : q = 0
    · simpa [gmTick, hdt, h0] using h
    · have hg : gmTick cfg inp s = winCheck (preWin cfg inp q s) := by
        simp [gmTick, hdt, h0]
      rw [hg]
      intro c hc
      rw [winCheck_cows] at hc
      have h1 : ∀ a ∈ (applyFollow { s with person := Person.setControlledDirection (keyDirection inp) s.person }).cows, axisAligned a.anim.velocity :=
        fun a ha => applyFollow_cowsAligned { s with person := Person.setControlledDirection (keyDirection inp) s.person } h a ha
      have h2 : ∀ b ∈ (mapThread (Cow.tick inp q) (applyFollow { s with person := Person.setControlledDirection (keyDirection inp) s.person }).cows ⟨0, 0⟩).1, axisAligned b.anim.velocity :=
        mapThread_pres (fun a => axisAligned a.anim.velocity) (Cow.tick inp q)
          (fun a r ha => cowTick_aligned inp q a r ha) _ _ h1
      have h3 : ∀ b ∈ (mapThread (collideStep cfg (spriteTick q (applyFollow { s with person := Person.setControlledDirection (keyDirection inp) s.person }).fence) inp q) (mapThread (Cow.tick inp q) (applyFollow { s with person := Person.setControlledDirection (keyDirection inp) s.person }).cows ⟨0, 0⟩).1 (mapThread (Cow.tick inp q) (applyFollow { s with person := Person.setControlledDirection (keyDirection inp) s.person }).cows ⟨0, 0⟩).2).1, axisAligned b.anim.velocity :=
        mapThread_pres (fun a => axisAligned a.anim.velocity)
          (collideStep cfg (spriteTick q (applyFollow { s with person := Person.setControlledDirection (keyDirection inp) s.person }).fence) inp q)
          (fun a r ha => collideStep_aligned cfg _ inp q a r ha) _ _ h2
      exact h3 c hc

/-- keyTyped keeps all cow velocities axis-aligned. -/
theorem gmKeyTyped_cowsAligned (k : Char) (s : GameState)
    (h : cowsAligned s) : cowsAligned (gmKeyTyped k s) := by
  unfold cowsAligned at *
  unfold gmKeyTyped
  split
  · cases hf : s.followingCow with
    | some i =>
      intro b hb
      exact modifyIdx_pres (fun a => axisAligned a.anim.velocity)
        (fun c => { c with targetPosition := none })
        (fun a ha => ha) s.cows i h b hb
    | none =>
      cases hi : List.findIdx? (fun c =>
          distLt s.person.position c.anim.position GameManager.cowRange)
          s.cows with
      | some i => exact h
      | none => exact h
  · exact h

/-- Any single operation keeps all cow velocities axis-aligned. -/
theorem applyOp_cowsAligned (cfg : Cfg) (s : GameState) (op : Op)
    (h : cowsAligned s) : cowsAligned (applyOp cfg s op) := by
  cases op with
  | tick inp => exact gmTick_cowsAligned cfg inp s h
  | draw => exact h
  | keyTyped k => exact gmKeyTyped_cowsAligned k s h

/-- Any operation sequence keeps all cow velocities axis-aligned. -/
theorem applyOps_cowsAligned (cfg : Cfg) (ops : List Op) :
    ∀ s : GameState, cowsAligned s → cowsAligned (applyOps cfg ops s) := by
  induction ops with
  | nil => exact fun s h => h
  | cons op rest ih =>
    exact fun s h => ih (applyOp cfg s op) (applyOp_cowsAligned cfg s op h)

/-- All cows are created with zero velocity. -/
theorem initialState_cowsAligned (cfg : Cfg) (p0 p1 p2 : Vec) :
    cowsAligned (initialState cfg p0 p1 p2) := by
  intro c hc
  have hc' : c ∈ [mkCow p0, mkCow p1, mkCow p2] := hc
  simp only [List.mem_cons, List.not_mem_nil, or_false] at hc'
  rcases hc' with rfl | rfl | rfl <;> exact Or.inl rfl

/-- The warm-up loop of setup keeps all cow velocities axis-aligned. -/
theorem foldl_gmTick_cowsAligned (cfg : Cfg) (env : ℕ → Input)
    (l : List ℕ) :
    ∀ s : GameState, cowsAligned s →
      cowsAligned (l.foldl (fun s i => gmTick cfg (env i) s) s) := by
  induction l with
  | nil => exact fun s h => h
  | cons a as ih =>
    exact fun s h => ih (gmTick cfg (env a) s) (gmTick_cowsAligned cfg (env a) s h)

/-- setup produces a state with all cow velocities axis-aligned. -/
theorem gmSetup_cowsAligned (cfg : Cfg) (p0 p1 p2 : Vec)
    (envInputs : ℕ → Input) : cowsAligned (gmSetup cfg p0 p1 p2 envInputs) :=
  foldl_gmTick_cowsAligned cfg envInputs (List.range 10)
    (initialState cfg p0 p1 p2) (initialState_cowsAligned cfg p0 p1 p2)

/-- Claim C10: in every reachable state — any operation sequence after setup
— every cow's velocity is axis-aligned: at most one of its components is
nonzero, in NORMAL mode as well as FOLLOWING mode, through all random
toggles and both collision negations. -/
theorem cow_velocity_axis_aligned (cfg : Cfg) (p0 p1 p2 : Vec)
    (envInputs : ℕ → Input) (ops : List Op) :
    cowsAligned (applyOps cfg ops (gmSetup cfg p0 p1 p2 envInputs)) :=
  applyOps_cowsAligned cfg ops (gmSetup cfg p0 p1 p2 envInputs)
    (gmSetup_cowsAligned cfg p0 p1 p2 envInputs)

/-- Concrete instance of `cow_velocity_axis_aligned`: a cow of the freshly
set up state has an axis-aligned velocity. -/
theorem cow_velocity_axis_aligned_witness :
    axisAligned ((mkCow ⟨1, 2⟩).anim.velocity) :=
  cow_velocity_axis_aligned cfg0 ⟨1, 2⟩ ⟨3, 4⟩ ⟨5, 6⟩ (fun _ => badInp) []
    (mkCow ⟨1, 2⟩) (List.mem_cons_self _ _)
